import Mathlib

/-!
# Verification of the caldav-anon calendar transcoder

Shallow embedding of the property-filtering and regeneration engine of the
`caldav-anon` repository.  The repository builds two binaries:

* `src/main.rs` — the *Anonymize* deployment: replaces every event `SUMMARY`
  with a configured message, pseudonymizes `UID` with HMAC-SHA256, and
  filters everything else through a per-component-kind policy table;
* `src/bin/ics-ignore.rs` — the *IgnoreMatching* deployment: drops whole
  events whose `SUMMARY` equals a configured sentinel and passes every other
  property through unmodified, using the renderer from `src/lib.rs`.

The embedding models the output of each generator as a list of lines, each
line carrying its terminating `"\n"` exactly as the Rust code appends it;
the final document string is the concatenation (`String.join`) of the lines.
Fallible Rust functions returning `anyhow::Result` become `Except String`.
The external HMAC-SHA256 collaborator (`hmac`/`sha2`/`hex` crates) is given
a concrete bit-faithful implementation over byte lists (`Nat` values below
256, arithmetic mod 2^32 made explicit), so the pseudonymization claims are
about the genuine function.
-/

namespace CaldavAnon

/-- `ical::property::Property`: a property name, optional ordered parameter
list (each parameter is a name with an ordered, non-empty value list), and
optional scalar value.  Mirrors the `ical` crate's parsed representation
consumed by the repository. -/
structure Property where
  name : String
  params : Option (List (String × List String))
  value : Option String
  deriving Repr, DecidableEq

/-- A timezone transition (the `ical` crate's `IcalTimeZoneTransition`):
the repository only reads its ordered property list. -/
structure IcalTimeZoneTransition where
  properties : List Property
  deriving Repr, DecidableEq

/-- `IcalTimeZone`: ordered properties plus ordered transitions. -/
structure IcalTimeZone where
  properties : List Property
  transitions : List IcalTimeZoneTransition
  deriving Repr, DecidableEq

/-- `IcalAlarm`: the repository never inspects its contents, only whether
the calendar-level alarm list is empty. -/
structure IcalAlarm where
  properties : List Property
  deriving Repr, DecidableEq

/-- `IcalTodo`: only emptiness of the calendar-level list is inspected. -/
structure IcalTodo where
  properties : List Property
  deriving Repr, DecidableEq

/-- `IcalJournal`: only emptiness of the calendar-level list is inspected. -/
structure IcalJournal where
  properties : List Property
  deriving Repr, DecidableEq

/-- `IcalFreeBusy`: only emptiness of the calendar-level list is inspected. -/
structure IcalFreeBusy where
  properties : List Property
  deriving Repr, DecidableEq

/-- `IcalEvent`: ordered properties plus an embedded alarm list that the
transcoders never read (main.rs: "Ignore all alarms"). -/
structure IcalEvent where
  properties : List Property
  alarms : List IcalAlarm
  deriving Repr, DecidableEq

/-- `IcalCalendar`: the parsed calendar tree handed to `generate_ics`. -/
structure IcalCalendar where
  properties : List Property
  timezones : List IcalTimeZone
  events : List IcalEvent
  alarms : List IcalAlarm
  todos : List IcalTodo
  journals : List IcalJournal
  free_busys : List IcalFreeBusy
  deriving Repr, DecidableEq

end CaldavAnon

namespace Sha256

/-! ## SHA-256 and HMAC-SHA256 over byte lists

Bit-faithful model of the external `sha2`/`hmac`/`hex` crates used by
`src/main.rs` for UID pseudonymization.  Bytes are `Nat` values; 32-bit
words are `Nat` reduced mod `2^32` at every operation. -/

/-- 32-bit truncation. -/
def mask32 (x : Nat) : Nat := x % 4294967296

/-- 32-bit addition. -/
def add32 (a b : Nat) : Nat := mask32 (a + b)

/-- Right rotation of a 32-bit word by `n` bits. -/
def rotr (n x : Nat) : Nat := mask32 ((x >>> n) ||| (x <<< (32 - n)))

/-- The SHA-256 round constants (FIPS 180-4, written in decimal). -/
def K : List Nat :=
  [1116352408, 1899447441, 3049323471, 3921009573, 961987163,
   1508970993, 2453635748, 2870763221, 3624381080, 310598401,
   607225278, 1426881987, 1925078388, 2162078206, 2614888103,
   3248222580, 3835390401, 4022224774, 264347078, 604807628,
   770255983, 1249150122, 1555081692, 1996064986, 2554220882,
   2821834349, 2952996808, 3210313671, 3336571891, 3584528711,
   113926993, 338241895, 666307205, 773529912, 1294757372,
   1396182291, 1695183700, 1986661051, 2177026350, 2456956037,
   2730485921, 2820302411, 3259730800, 3345764771, 3516065817,
   3600352804, 4094571909, 275423344, 430227734, 506948616,
   659060556, 883997877, 958139571, 1322822218, 1537002063,
   1747873779, 1955562222, 2024104815, 2227730452, 2361852424,
   2428436474, 2756734187, 3204031479, 3329325298]

/-- The SHA-256 initial hash state (FIPS 180-4, written in decimal). -/
def H0 : List Nat :=
  [1779033703, 3144134277, 1013904242, 2773480762,
   1359893119, 2600822924, 528734635, 1541459225]

/-- Split a list into chunks of `n` elements (fuel-driven recursion). -/
def chunksOfGo (n : Nat) : Nat → List α → List (List α)
  | _, [] => []
  | 0, _ => []
  | fuel + 1, l => l.take n :: chunksOfGo n fuel (l.drop n)

/-- Split a list into chunks of `n` elements. -/
def chunksOf (n : Nat) (l : List α) : List (List α) :=
  chunksOfGo n l.length l

/-- Big-endian decoding of four bytes into one 32-bit word. -/
def wordOfBytes : List Nat → Nat
  | [b0, b1, b2, b3] => b0 * 16777216 + b1 * 65536 + b2 * 256 + b3
  | _ => 0

/-- Big-endian encoding of a 32-bit word into four bytes. -/
def bytesOfWord (w : Nat) : List Nat :=
  [w / 16777216 % 256, w / 65536 % 256, w / 256 % 256, w % 256]

/-- SHA-256 message-schedule small sigma 0. -/
def ssig0 (x : Nat) : Nat := (rotr 7 x) ^^^ (rotr 18 x) ^^^ (x >>> 3)

/-- SHA-256 message-schedule small sigma 1. -/
def ssig1 (x : Nat) : Nat := (rotr 17 x) ^^^ (rotr 19 x) ^^^ (x >>> 10)

/-- One message-schedule extension step: append word 16+i. -/
def scheduleStep (w : List Nat) : List Nat :=
  w ++ [mask32 (ssig1 (w.getD (w.length - 2) 0) + w.getD (w.length - 7) 0 +
        ssig0 (w.getD (w.length - 15) 0) + w.getD (w.length - 16) 0)]

/-- Extend the 16 initial words of one block to the 64-word schedule. -/
def schedule (w16 : List Nat) : List Nat :=
  (List.range 48).foldl (fun w _ => scheduleStep w) w16

/-- The SHA-256 working state (a..h). -/
structure St where
  a : Nat
  b : Nat
  c : Nat
  d : Nat
  e : Nat
  f : Nat
  g : Nat
  h : Nat
  deriving Repr, DecidableEq

/-- One SHA-256 compression round with round constant `k` and schedule
word `w`. -/
def round (st : St) (kw : Nat × Nat) : St :=
  let bs1 := (rotr 6 st.e) ^^^ (rotr 11 st.e) ^^^ (rotr 25 st.e)
  let ch := (st.e &&& st.f) ^^^ ((4294967295 - st.e) &&& st.g)
  let t1 := mask32 (st.h + bs1 + ch + kw.1 + kw.2)
  let bs0 := (rotr 2 st.a) ^^^ (rotr 13 st.a) ^^^ (rotr 22 st.a)
  let maj := (st.a &&& st.b) ^^^ (st.a &&& st.c) ^^^ (st.b &&& st.c)
  let t2 := mask32 (bs0 + maj)
  ⟨add32 t1 t2, st.a, st.b, st.c, add32 st.d t1, st.e, st.f, st.g⟩

/-- Compress one 64-byte block into the running 8-word hash state. -/
def compress (h : List Nat) (block : List Nat) : List Nat :=
  let w := schedule ((chunksOf 4 block).map wordOfBytes)
  let st0 : St := ⟨h.getD 0 0, h.getD 1 0, h.getD 2 0, h.getD 3 0,
                   h.getD 4 0, h.getD 5 0, h.getD 6 0, h.getD 7 0⟩
  let st := (K.zip w).foldl round st0
  [add32 (h.getD 0 0) st.a, add32 (h.getD 1 0) st.b,
   add32 (h.getD 2 0) st.c, add32 (h.getD 3 0) st.d,
   add32 (h.getD 4 0) st.e, add32 (h.getD 5 0) st.f,
   add32 (h.getD 6 0) st.g, add32 (h.getD 7 0) st.h]

/-- SHA-256 padding: append `0x80`, zeros to 56 mod 64, then the 64-bit
big-endian bit length. -/
def pad (msg : List Nat) : List Nat :=
  let L := msg.length
  let zeros := (119 - L % 64) % 64
  let bits := 8 * L
  msg ++ [0x80] ++ List.replicate zeros 0 ++
    [bits / 72057594037927936 % 256, bits / 281474976710656 % 256,
     bits / 1099511627776 % 256, bits / 4294967296 % 256,
     bits / 16777216 % 256, bits / 65536 % 256, bits / 256 % 256, bits % 256]

/-- SHA-256 of a byte list, as the 32-byte digest. -/
def sha256 (msg : List Nat) : List Nat :=
  ((chunksOf 64 (pad msg)).foldl compress H0).foldr
    (fun w acc => bytesOfWord w ++ acc) []

/-- HMAC-SHA256 (RFC 2104) of a message under a key, as the 32-byte tag.
`Hmac::<Sha256>::new_from_slice` accepts keys of any length (including
empty), so initialization never fails. -/
def hmacSha256 (key msg : List Nat) : List Nat :=
  let k0 := if key.length > 64 then sha256 key else key
  let k := k0 ++ List.replicate (64 - k0.length) 0
  let ipadded := k.map (fun b => b ^^^ 0x36)
  let opadded := k.map (fun b => b ^^^ 0x5c)
  sha256 (opadded ++ sha256 (ipadded ++ msg))

/-- Lower-case hexadecimal digit: `0`..`9` then `a`..`f`. -/
def hexDigit (n : Nat) : Char :=
  if n < 10 then Char.ofNat (48 + n) else Char.ofNat (87 + n)

/-- Lower-case hexadecimal encoding of a byte list (`hex::encode`). -/
def hexEncode (bytes : List Nat) : String :=
  String.mk (bytes.foldr (fun b acc => hexDigit (b / 16) :: hexDigit (b % 16) :: acc) [])

/-- UTF-8 encoding of one character. -/
def utf8Char (c : Char) : List Nat :=
  let n := c.toNat
  if n < 0x80 then [n]
  else if n < 0x800 then [0xc0 ||| (n >>> 6), 0x80 ||| (n &&& 0x3f)]
  else if n < 0x10000 then
    [0xe0 ||| (n >>> 12), 0x80 ||| ((n >>> 6) &&& 0x3f), 0x80 ||| (n &&& 0x3f)]
  else
    [0xf0 ||| (n >>> 18), 0x80 ||| ((n >>> 12) &&& 0x3f),
     0x80 ||| ((n >>> 6) &&& 0x3f), 0x80 ||| (n &&& 0x3f)]

/-- UTF-8 bytes of a string (Rust's `str::as_bytes`). -/
def utf8Bytes (s : String) : List Nat :=
  s.data.foldr (fun c acc => utf8Char c ++ acc) []

/-- `hex::encode(Hmac::<Sha256>(seed).chain(msg).finalize())`: the
lower-case hex HMAC-SHA256 tag of `msg` under key `seed`, both UTF-8. -/
def hmacSha256Hex (seed msg : String) : String :=
  hexEncode (hmacSha256 (utf8Bytes seed) (utf8Bytes msg))

end Sha256

namespace CaldavAnon

namespace IcsTools

/-! ## `src/lib.rs` — shared helpers for the IgnoreMatching deployment -/

/-- One iteration of the parameter loop of `build_property` in `src/lib.rs`:
appends `;PARAM="V0","V1",...` with every value double-quoted.  The source
indexes `p.1[0]`, which is unreachable with an empty value list (the `ical`
parser never produces one); that case is mapped to an empty quoted value. -/
def renderParam (res : String) (p : String × List String) : String :=
  match p.2 with
  | [] => res ++ ";" ++ p.1 ++ "=\"" ++ "\""
  | v0 :: vs =>
    (vs.foldl (fun r v => r ++ "\",\"" ++ v) (res ++ ";" ++ p.1 ++ "=\"" ++ v0)) ++ "\""

/-- `build_property` from `src/lib.rs`: renders one property line with the
parameter values and the scalar value wrapped in double quotes, terminated
by a newline. -/
def build_property (name : String) (params : Option (List (String × List String)))
    (value : Option String) : String :=
  (match params with
   | none => name
   | some ps => ps.foldl renderParam name) ++ ":\"" ++
  (match value with
   | none => ""
   | some v => v) ++ "\"\n"

end IcsTools

namespace Anon

/-! ## `src/main.rs` — the Anonymize deployment -/

/-- The `Cfg` struct of `src/main.rs`. -/
structure Cfg where
  message : String
  seed : String
  ignore_unknown_properties : Bool
  deriving Repr, DecidableEq

/-- One iteration of the parameter loop of `build_property` in
`src/main.rs`: appends `;PARAM=V0,V1,...` with bare (unquoted) values.
The source indexes `p.1[0]`, unreachable with an empty value list. -/
def renderParam (res : String) (p : String × List String) : String :=
  match p.2 with
  | [] => res ++ ";" ++ p.1 ++ "="
  | v0 :: vs => vs.foldl (fun r v => r ++ "," ++ v) (res ++ ";" ++ p.1 ++ "=" ++ v0)

/-- `build_property` from `src/main.rs`: renders one property line
`NAME[;PARAM=VAL[,VAL2,...]]*:VALUE\n` with bare parameter values and a
bare scalar value. -/
def build_property (name : String) (params : Option (List (String × List String)))
    (value : Option String) : String :=
  (match params with
   | none => name
   | some ps => ps.foldl renderParam name) ++ ":" ++
  (match value with
   | none => ""
   | some v => v) ++ "\n"

/-- The `unknown_property!` macro of `src/main.rs`: with
`ignore_unknown_properties` set it logs a warning and contributes nothing;
otherwise it aborts with an error naming the component kind and the
property. -/
def unknownProperty (ty : String) (cfg : Cfg) (propname : String) :
    Except String (List String) :=
  if cfg.ignore_unknown_properties then
    .ok []
  else
    .error ("Found unknown " ++ ty ++ " property " ++ propname ++
      ", please open an issue and consider using ignore_unknown_properties")

/-- Rust's `str::starts_with` on the parsed data (a character-level
prefix test; `String.startsWith` itself is not kernel-reducible). -/
def strStartsWith (s pre : String) : Bool :=
  List.isPrefixOf pre.data s.data

/-- The per-property body of the loop in `handle_calendar_properties`
(`src/main.rs`), with the match arms in source order: `CALSCALE` is
proxied; `METHOD`, `PRODID`, `REFRESH-INTERVAL`, `VERSION` with value
exactly `"2.0"`, and `X-`-prefixed names are censored (no output);
anything else goes through `unknown_property!`. -/
def calPropLines (cfg : Cfg) (p : Property) : Except String (List String) :=
  if p.name = "CALSCALE" then .ok [build_property "CALSCALE" p.params p.value]
  else if p.name = "METHOD" then .ok []
  else if p.name = "PRODID" then .ok []
  else if p.name = "REFRESH-INTERVAL" then .ok []
  else if p.name = "VERSION" ∧ p.value = some "2.0" then .ok []
  else if strStartsWith p.name "X-" then .ok []
  else unknownProperty "calendar" cfg p.name

/-- A `for p in props` loop accumulating the lines contributed by each
property into `res`, aborting on the first failure (the `?`-style early
return of the enclosing function). -/
def renderProps (f : Property → Except String (List String)) :
    List Property → Except String (List String)
  | [] => .ok []
  | p :: ps =>
    match f p with
    | .error e => .error e
    | .ok l =>
      match renderProps f ps with
      | .error e => .error e
      | .ok rest => .ok (l ++ rest)

/-- `handle_calendar_properties` from `src/main.rs` (output lines only;
the source appends them to `res`). -/
def handle_calendar_properties (cfg : Cfg) (props : List Property) :
    Except String (List String) :=
  renderProps (calPropLines cfg) props

/-- Per-property body of the timezone property loop in `handle_timezones`:
only `TZID` is proxied. -/
def tzPropLines (cfg : Cfg) (p : Property) : Except String (List String) :=
  if p.name = "TZID" then .ok [build_property p.name p.params p.value]
  else unknownProperty "timezone" cfg p.name

/-- Per-property body of the transition loop in `handle_timezones`:
`DTSTART`, `RRULE`, `TZNAME`, `TZOFFSETFROM`, `TZOFFSETTO` are proxied. -/
def transPropLines (cfg : Cfg) (p : Property) : Except String (List String) :=
  if p.name = "DTSTART" ∨ p.name = "RRULE" ∨ p.name = "TZNAME" ∨
      p.name = "TZOFFSETFROM" ∨ p.name = "TZOFFSETTO" then
    .ok [build_property p.name p.params p.value]
  else unknownProperty "timezone transition" cfg p.name

/-- The transition loop of `handle_timezones` (`src/main.rs`): each
transition renders as a `BEGIN:STANDARD` block (the `ical` crate does not
expose DAYLIGHT vs STANDARD, see the TODO in the source). -/
def handle_transitions (cfg : Cfg) :
    List IcalTimeZoneTransition → Except String (List String)
  | [] => .ok []
  | t :: ts =>
    match renderProps (transPropLines cfg) t.properties with
    | .error e => .error e
    | .ok body =>
      match handle_transitions cfg ts with
      | .error e => .error e
      | .ok rest => .ok (["BEGIN:STANDARD\n"] ++ body ++ ["END:STANDARD\n"] ++ rest)

/-- `handle_timezones` from `src/main.rs`. -/
def handle_timezones (cfg : Cfg) : List IcalTimeZone → Except String (List String)
  | [] => .ok []
  | tz :: tzs =>
    match renderProps (tzPropLines cfg) tz.properties with
    | .error e => .error e
    | .ok props =>
      match handle_transitions cfg tz.transitions with
      | .error e => .error e
      | .ok tlines =>
        match handle_timezones cfg tzs with
        | .error e => .error e
        | .ok rest =>
          .ok (["BEGIN:VTIMEZONE\n"] ++ props ++ tlines ++ ["END:VTIMEZONE\n"] ++ rest)

/-- Per-property body of the event loop in `handle_events`
(`src/main.rs`), match arms in source order: the eight timing/status
properties are proxied; `UID` with a value is replaced by
`UID:<hex HMAC-SHA256(seed, value)>` (no output when `UID` has no value);
`CREATED`, `DTSTAMP`, `DESCRIPTION`, `LAST-MODIFIED`, `LOCATION`,
`SUMMARY`, `URL` are censored; anything else goes through
`unknown_property!`. -/
def eventPropLines (cfg : Cfg) (p : Property) : Except String (List String) :=
  if p.name = "DTSTART" ∨ p.name = "DTEND" ∨ p.name = "EXDATE" ∨
      p.name = "EXRULE" ∨ p.name = "RDATE" ∨ p.name = "RRULE" ∨
      p.name = "SEQUENCE" ∨ p.name = "STATUS" then
    .ok [build_property p.name p.params p.value]
  else if p.name = "UID" then
    match p.value with
    | some v => .ok ["UID:" ++ Sha256.hmacSha256Hex cfg.seed v ++ "\n"]
    | none => .ok []
  else if p.name = "CREATED" ∨ p.name = "DTSTAMP" ∨ p.name = "DESCRIPTION" ∨
      p.name = "LAST-MODIFIED" ∨ p.name = "LOCATION" ∨ p.name = "SUMMARY" ∨
      p.name = "URL" then
    .ok []
  else unknownProperty "event" cfg p.name

/-- The three lines `handle_events` appends for an event before walking
its properties: `BEGIN:VEVENT`, the synthetic `SUMMARY` carrying the
configured message, and the fixed `DTSTAMP`. -/
def eventHeader (cfg : Cfg) : List String :=
  ["BEGIN:VEVENT\n", "SUMMARY:" ++ cfg.message ++ "\n", "DTSTAMP:20200101T000001Z\n"]

/-- `handle_events` from `src/main.rs`: per event, the synthetic header,
then the filtered properties (embedded alarms are ignored), then
`END:VEVENT`. -/
def handle_events (cfg : Cfg) : List IcalEvent → Except String (List String)
  | [] => .ok []
  | e :: es =>
    match renderProps (eventPropLines cfg) e.properties with
    | .error e => .error e
    | .ok body =>
      match handle_events cfg es with
      | .error e => .error e
      | .ok rest => .ok (eventHeader cfg ++ body ++ ["END:VEVENT\n"] ++ rest)

/-- The fixed document header of `generate_ics` in `src/main.rs`
(one Rust string literal holding three lines). -/
def header : List String :=
  ["BEGIN:VCALENDAR\n", "VERSION:2.0\n", "PRODID:CALDAV-ANON\n"]

/-- `generate_ics` from `src/main.rs`, with the output as a line list:
header, calendar properties, timezones, events, then the four `ensure!`
emptiness checks (alarms, todos, journals, free-busys) and the closing
`END:VCALENDAR`. -/
def generate_ics_lines (cal : IcalCalendar) (cfg : Cfg) :
    Except String (List String) :=
  match handle_calendar_properties cfg cal.properties with
  | .error e => .error e
  | .ok cp =>
    match handle_timezones cfg cal.timezones with
    | .error e => .error e
    | .ok tz =>
      match handle_events cfg cal.events with
      | .error e => .error e
      | .ok ev =>
        if cal.alarms.isEmpty = false then
          .error "Parsed calendar had alarms, this is not implemented yet, please open an issue"
        else if cal.todos.isEmpty = false then
          .error "Parsed calendar had todos, this is not implemented yet, please open an issue"
        else if cal.journals.isEmpty = false then
          .error "Parsed calendar had journals, this is not implemented yet, please open an issue"
        else if cal.free_busys.isEmpty = false then
          .error "Parsed calendar had free_busys, this is not implemented yet, please open an issue"
        else
          .ok (header ++ cp ++ tz ++ ev ++ ["END:VCALENDAR\n"])

/-- `generate_ics` from `src/main.rs` as the final document string. -/
def generate_ics (cal : IcalCalendar) (cfg : Cfg) : Except String String :=
  (generate_ics_lines cal cfg).map String.join

end Anon

namespace Ignore

/-! ## `src/bin/ics-ignore.rs` — the IgnoreMatching deployment -/

/-- The `Cfg` struct of `src/bin/ics-ignore.rs`. -/
structure Cfg where
  ignore_if_summary_is : String
  deriving Repr, DecidableEq

/-- The one-property rendering used everywhere in `ics-ignore.rs`:
`build_property(&p.name, &p.params, &p.value)` from `src/lib.rs`. -/
def renderProp (p : Property) : String :=
  IcsTools.build_property p.name p.params p.value

/-- `handle_calendar_properties` from `ics-ignore.rs`: every calendar
property is passed through unconditionally (no policy, no failure). -/
def handle_calendar_properties (_cfg : Cfg) (props : List Property) :
    Except String (List String) :=
  .ok (props.map renderProp)

/-- One transition block in `handle_timezones` of `ics-ignore.rs`. -/
def transitionBlock (t : IcalTimeZoneTransition) : List String :=
  ["BEGIN:STANDARD\n"] ++ t.properties.map renderProp ++ ["END:STANDARD\n"]

/-- One timezone block in `handle_timezones` of `ics-ignore.rs`. -/
def timezoneBlock (tz : IcalTimeZone) : List String :=
  ["BEGIN:VTIMEZONE\n"] ++ tz.properties.map renderProp ++
    (tz.transitions.map transitionBlock).flatten ++ ["END:VTIMEZONE\n"]

/-- `handle_timezones` from `ics-ignore.rs`: all properties pass through,
each transition under a `BEGIN:STANDARD` block; never fails. -/
def handle_timezones (_cfg : Cfg) (tzs : List IcalTimeZone) :
    Except String (List String) :=
  .ok ((tzs.map timezoneBlock).flatten)

/-- The skip test of `handle_events` in `ics-ignore.rs`: the labelled
`continue 'next_evt` fires when some property is a `SUMMARY` whose value
equals the configured sentinel. -/
def summaryMatches (cfg : Cfg) (p : Property) : Bool :=
  p.name == "SUMMARY" && p.value == some cfg.ignore_if_summary_is

/-- One event's contribution in `handle_events` of `ics-ignore.rs`: the
whole event is skipped (zero lines) when a `SUMMARY` matches the
sentinel, otherwise every property is rendered inside a `VEVENT` block. -/
def eventBlock (cfg : Cfg) (e : IcalEvent) : List String :=
  if e.properties.any (summaryMatches cfg) then []
  else ["BEGIN:VEVENT\n"] ++ e.properties.map renderProp ++ ["END:VEVENT\n"]

/-- `handle_events` from `ics-ignore.rs`; never fails. -/
def handle_events (cfg : Cfg) (evts : List IcalEvent) :
    Except String (List String) :=
  .ok ((evts.map (eventBlock cfg)).flatten)

/-- `generate_ics` from `ics-ignore.rs`: bare `BEGIN:VCALENDAR` opening
(no fixed VERSION/PRODID header), the three handlers, the four `ensure!`
emptiness checks, and the closing `END:VCALENDAR`. -/
def generate_ics_lines (cal : IcalCalendar) (cfg : Cfg) :
    Except String (List String) :=
  match handle_calendar_properties cfg cal.properties with
  | .error e => .error e
  | .ok cp =>
    match handle_timezones cfg cal.timezones with
    | .error e => .error e
    | .ok tz =>
      match handle_events cfg cal.events with
      | .error e => .error e
      | .ok ev =>
        if cal.alarms.isEmpty = false then
          .error "Parsed calendar had alarms, this is not implemented yet, please open an issue"
        else if cal.todos.isEmpty = false then
          .error "Parsed calendar had todos, this is not implemented yet, please open an issue"
        else if cal.journals.isEmpty = false then
          .error "Parsed calendar had journals, this is not implemented yet, please open an issue"
        else if cal.free_busys.isEmpty = false then
          .error "Parsed calendar had free_busys, this is not implemented yet, please open an issue"
        else
          .ok (["BEGIN:VCALENDAR\n"] ++ cp ++ tz ++ ev ++ ["END:VCALENDAR\n"])

/-- `generate_ics` from `ics-ignore.rs` as the final document string. -/
def generate_ics (cal : IcalCalendar) (cfg : Cfg) : Except String String :=
  (generate_ics_lines cal cfg).map String.join

end Ignore

end CaldavAnon

namespace CaldavAnon

/-! ## Block-structure checker

A small specification-side scanner over emitted lines, used to state the
structural invariant of the output documents: every `BEGIN:<kind>` line is
matched by a later `END:<kind>` line with the nesting the transcoders are
supposed to produce (timezones and events directly under the calendar,
`STANDARD` transition blocks directly under a timezone). -/

/-- The four block kinds the transcoders emit. -/
inductive BlockKind
  | vcalendar
  | vtimezone
  | vstandard
  | vevent
  deriving Repr, DecidableEq

/-- Recognize the `BEGIN:<kind>` lines emitted by the transcoders. -/
def beginOf (l : String) : Option BlockKind :=
  if l = "BEGIN:VCALENDAR\n" then some .vcalendar
  else if l = "BEGIN:VTIMEZONE\n" then some .vtimezone
  else if l = "BEGIN:STANDARD\n" then some .vstandard
  else if l = "BEGIN:VEVENT\n" then some .vevent
  else none

/-- Recognize the `END:<kind>` lines emitted by the transcoders. -/
def endOf (l : String) : Option BlockKind :=
  if l = "END:VCALENDAR\n" then some .vcalendar
  else if l = "END:VTIMEZONE\n" then some .vtimezone
  else if l = "END:STANDARD\n" then some .vstandard
  else if l = "END:VEVENT\n" then some .vevent
  else none

/-- A line that is neither a `BEGIN` nor an `END` delimiter. -/
def delimFree (l : String) : Bool :=
  (beginOf l).isNone && (endOf l).isNone

/-- Which block kind may open under which enclosing block: the calendar at
top level, timezones and events directly inside the calendar, `STANDARD`
transition blocks directly inside a timezone. -/
def pushAllowed : List BlockKind → BlockKind → Bool
  | [], .vcalendar => true
  | .vcalendar :: _, .vtimezone => true
  | .vcalendar :: _, .vevent => true
  | .vtimezone :: _, .vstandard => true
  | _, _ => false

/-- Structural scan of a line list with an explicit stack of open blocks:
`BEGIN` lines push (when allowed by `pushAllowed`), `END` lines pop their
own kind, content lines are only legal inside some open block.  Returns
the final stack, or `none` on a structural violation. -/
def scan : List String → List BlockKind → Option (List BlockKind)
  | [], st => some st
  | l :: ls, st =>
    match beginOf l with
    | some k => if pushAllowed st k then scan ls (k :: st) else none
    | none =>
      match endOf l with
      | some k =>
        match st with
        | k' :: s => if k = k' then scan ls s else none
        | [] => none
      | none => if st.isEmpty then none else scan ls st

/-- The calendar-property names `handle_calendar_properties` in
`src/main.rs` recognizes (everything else falls to `unknown_property!`):
`CALSCALE`, `METHOD`, `PRODID`, `REFRESH-INTERVAL`, `VERSION` with value
exactly `"2.0"`, and `X-`-prefixed names. -/
def calKnown (p : Property) : Bool :=
  decide (p.name = "CALSCALE") || decide (p.name = "METHOD") ||
  decide (p.name = "PRODID") || decide (p.name = "REFRESH-INTERVAL") ||
  decide (p.name = "VERSION" ∧ p.value = some "2.0") || Anon.strStartsWith p.name "X-"

/-- The timezone-property names recognized in `handle_timezones`
(`src/main.rs`): only `TZID`. -/
def tzKnown (p : Property) : Bool :=
  decide (p.name = "TZID")

/-- The transition-property names recognized in `handle_timezones`
(`src/main.rs`). -/
def transKnown (p : Property) : Bool :=
  decide (p.name = "DTSTART" ∨ p.name = "RRULE" ∨ p.name = "TZNAME" ∨
    p.name = "TZOFFSETFROM" ∨ p.name = "TZOFFSETTO")

/-- The event-property names recognized in `handle_events`
(`src/main.rs`): the eight proxied names, `UID`, and the seven censored
names. -/
def eventKnown (p : Property) : Bool :=
  decide (p.name = "DTSTART" ∨ p.name = "DTEND" ∨ p.name = "EXDATE" ∨
    p.name = "EXRULE" ∨ p.name = "RDATE" ∨ p.name = "RRULE" ∨
    p.name = "SEQUENCE" ∨ p.name = "STATUS") ||
  decide (p.name = "UID") ||
  decide (p.name = "CREATED" ∨ p.name = "DTSTAMP" ∨ p.name = "DESCRIPTION" ∨
    p.name = "LAST-MODIFIED" ∨ p.name = "LOCATION" ∨ p.name = "SUMMARY" ∨
    p.name = "URL")

theorem scan_append (a b : List String) (st : List BlockKind) :
    scan (a ++ b) st = (scan a st).bind (fun st2 => scan b st2) := by
  induction a generalizing st with
  | nil => simp [scan]
  | cons l ls ih =>
    simp only [List.cons_append, scan]
    cases hb : beginOf l with
    | some k =>
      by_cases hp : pushAllowed st k = true
      · simp [hp, ih]
      · simp [hp]
    | none =>
      cases he : endOf l with
      | some k =>
        cases st with
        | nil => simp
        | cons k' s =>
          by_cases hk : k = k'
          · simp [hk, ih]
          · simp [hk]
      | none =>
        by_cases hs : st.isEmpty
        · simp [hs]
        · simp [hs, ih]

theorem scan_content (ls : List String) (st : List BlockKind)
    (h : ∀ l ∈ ls, delimFree l = true) (hst : st ≠ []) : scan ls st = some st := by
  induction ls with
  | nil => simp [scan]
  | cons l ls ih =>
    have hl := h l (List.mem_cons_self l ls)
    have hb : beginOf l = none := by
      simp only [delimFree, Bool.and_eq_true, Option.isNone_iff_eq_none] at hl
      exact hl.1
    have he : endOf l = none := by
      simp only [delimFree, Bool.and_eq_true, Option.isNone_iff_eq_none] at hl
      exact hl.2
    have hse : st.isEmpty = false := by
      cases st with
      | nil => exact absurd rfl hst
      | cons a s => rfl
    simp only [scan, hb, he, hse]
    exact ih (fun x hx => h x (List.mem_cons_of_mem l hx))

/-- Content lines of the IgnoreMatching deployment all end in `"\n` (a
closing double quote then a newline), so their last-but-one character is a
double quote, which no delimiter line has. -/
theorem quoted_penult (s : String) :
    ((s ++ "\"\n").data.reverse.take 2) = ['\n', '"'] := by
  have hd : (s ++ "\"\n").data = s.data ++ ['"', '\n'] := rfl
  rw [hd, List.reverse_append]
  rfl

theorem beginOf_none_of_penult (l : String)
    (h : l.data.reverse.take 2 = ['\n', '"']) : beginOf l = none := by
  unfold beginOf
  split_ifs with e1 e2 e3 e4 <;>
    first
      | rfl
      | (subst e1; revert h; decide)
      | (subst e2; revert h; decide)
      | (subst e3; revert h; decide)
      | (subst e4; revert h; decide)

theorem endOf_none_of_penult (l : String)
    (h : l.data.reverse.take 2 = ['\n', '"']) : endOf l = none := by
  unfold endOf
  split_ifs with e1 e2 e3 e4 <;>
    first
      | rfl
      | (subst e1; revert h; decide)
      | (subst e2; revert h; decide)
      | (subst e3; revert h; decide)
      | (subst e4; revert h; decide)

theorem delimFree_of_penult (l : String)
    (h : l.data.reverse.take 2 = ['\n', '"']) : delimFree l = true := by
  simp [delimFree, beginOf_none_of_penult l h, endOf_none_of_penult l h]

theorem quoted_delimFree (s : String) : delimFree (s ++ "\"\n") = true :=
  delimFree_of_penult _ (quoted_penult s)

/-- Every `BEGIN` delimiter line starts with the characters `BE`. -/
theorem beginOf_none_of_take2 (l : String)
    (h : l.data.take 2 ≠ ['B', 'E']) : beginOf l = none := by
  unfold beginOf
  split_ifs with e1 e2 e3 e4 <;>
    first
      | rfl
      | (subst e1; exact absurd (by decide) h)
      | (subst e2; exact absurd (by decide) h)
      | (subst e3; exact absurd (by decide) h)
      | (subst e4; exact absurd (by decide) h)

/-- Every `END` delimiter line starts with the characters `EN`. -/
theorem endOf_none_of_take2 (l : String)
    (h : l.data.take 2 ≠ ['E', 'N']) : endOf l = none := by
  unfold endOf
  split_ifs with e1 e2 e3 e4 <;>
    first
      | rfl
      | (subst e1; exact absurd (by decide) h)
      | (subst e2; exact absurd (by decide) h)
      | (subst e3; exact absurd (by decide) h)
      | (subst e4; exact absurd (by decide) h)

/-- A line whose first two characters are neither `BE` nor `EN` is
content. -/
theorem delimFree_of_take2 (l : String)
    (h1 : l.data.take 2 ≠ ['B', 'E']) (h2 : l.data.take 2 ≠ ['E', 'N']) :
    delimFree l = true := by
  simp [delimFree, beginOf_none_of_take2 l h1, endOf_none_of_take2 l h2]

/-- Prepending a string of length ≥ 2 determines the first two characters
of the result. -/
theorem take2_append (pre suf : String) (hp : 2 ≤ pre.data.length) :
    (pre ++ suf).data.take 2 = pre.data.take 2 := by
  have hd : (pre ++ suf).data = pre.data ++ suf.data := rfl
  rw [hd, List.take_append_eq_append_take, Nat.sub_eq_zero_of_le hp]
  simp

end CaldavAnon

namespace CaldavAnon

theorem string_append_empty (s : String) : s ++ "" = s := by
  apply String.ext
  show s.data ++ [] = s.data
  exact List.append_nil s.data

theorem foldl_append_extends {α : Type} (g : String → α → String)
    (hg : ∀ r x, ∃ t, g r x = r ++ t) (l : List α) :
    ∀ r : String, ∃ t, l.foldl g r = r ++ t := by
  induction l with
  | nil => exact fun r => ⟨"", (string_append_empty r).symm⟩
  | cons x xs ih =>
    intro r
    obtain ⟨t0, ht0⟩ := hg r x
    obtain ⟨t1, ht1⟩ := ih (g r x)
    exact ⟨t0 ++ t1, by rw [List.foldl_cons, ht1, ht0, String.append_assoc]⟩

theorem anon_renderParam_extends (r : String) (p : String × List String) :
    ∃ t, Anon.renderParam r p = r ++ t := by
  obtain ⟨pn, pv⟩ := p
  cases pv with
  | nil =>
    refine ⟨";" ++ pn ++ "=", ?_⟩
    show r ++ ";" ++ pn ++ "=" = r ++ (";" ++ pn ++ "=")
    simp [String.append_assoc]
  | cons v0 vs =>
    obtain ⟨t, ht⟩ := foldl_append_extends (fun r v => r ++ "," ++ v)
      (fun r x => ⟨"," ++ x, by
        show r ++ "," ++ x = r ++ ("," ++ x)
        simp [String.append_assoc]⟩)
      vs (r ++ ";" ++ pn ++ "=" ++ v0)
    refine ⟨";" ++ pn ++ "=" ++ v0 ++ t, ?_⟩
    show List.foldl (fun r v => r ++ "," ++ v) (r ++ ";" ++ pn ++ "=" ++ v0) vs = _
    rw [ht]
    simp [String.append_assoc]

theorem anon_build_property_extends (n : String)
    (ps : Option (List (String × List String))) (v : Option String) :
    ∃ t, Anon.build_property n ps v = n ++ t := by
  unfold Anon.build_property
  obtain ⟨t0, ht0⟩ : ∃ t0, (match ps with
      | none => n
      | some l => List.foldl Anon.renderParam n l) = n ++ t0 := by
    cases ps with
    | none => exact ⟨"", (string_append_empty n).symm⟩
    | some l => exact foldl_append_extends Anon.renderParam anon_renderParam_extends l n
  rw [ht0]
  refine ⟨t0 ++ ":" ++ (match v with | none => "" | some w => w) ++ "\n", ?_⟩
  simp [String.append_assoc]

theorem icstools_build_property_quoted (n : String)
    (ps : Option (List (String × List String))) (v : Option String) :
    ∃ s, IcsTools.build_property n ps v = s ++ "\"\n" :=
  ⟨_, rfl⟩

/-- Every line rendered by the IgnoreMatching deployment's
`build_property` ends in a quote-newline pair, hence is never a block
delimiter. -/
theorem ignore_renderProp_delimFree (p : Property) :
    delimFree (Ignore.renderProp p) = true := by
  obtain ⟨s, hs⟩ := icstools_build_property_quoted p.name p.params p.value
  rw [Ignore.renderProp, hs]
  exact quoted_delimFree s

/-- A line produced by the Anonymize deployment's `build_property` whose
name does not start with `BE` or `EN` is never a block delimiter. -/
theorem anon_build_property_delimFree (n : String)
    (ps : Option (List (String × List String))) (v : Option String)
    (hlen : 2 ≤ n.data.length)
    (h1 : n.data.take 2 ≠ ['B', 'E']) (h2 : n.data.take 2 ≠ ['E', 'N']) :
    delimFree (Anon.build_property n ps v) = true := by
  obtain ⟨t, ht⟩ := anon_build_property_extends n ps v
  rw [ht]
  exact delimFree_of_take2 _
    (by rw [take2_append n t hlen]; exact h1)
    (by rw [take2_append n t hlen]; exact h2)

theorem prefixed_delimFree (pre mid : String)
    (hlen : 2 ≤ pre.data.length)
    (h1 : pre.data.take 2 ≠ ['B', 'E']) (h2 : pre.data.take 2 ≠ ['E', 'N']) :
    delimFree (pre ++ mid ++ "\n") = true := by
  rw [String.append_assoc]
  exact delimFree_of_take2 _
    (by rw [take2_append pre (mid ++ "\n") hlen]; exact h1)
    (by rw [take2_append pre (mid ++ "\n") hlen]; exact h2)

theorem renderProps_mem (f : Property → Except String (List String))
    (props : List Property) (out : List String)
    (h : Anon.renderProps f props = .ok out) :
    ∀ x ∈ out, ∃ p ∈ props, ∃ l, f p = .ok l ∧ x ∈ l := by
  induction props generalizing out with
  | nil =>
    simp only [Anon.renderProps] at h
    cases h
    intro x hx
    exact absurd hx (List.not_mem_nil x)
  | cons p ps ih =>
    intro x hx
    rw [Anon.renderProps] at h
    cases hf : f p with
    | error e => rw [hf] at h; cases h
    | ok l =>
      rw [hf] at h
      cases hr : Anon.renderProps f ps with
      | error e =>
        rw [hr] at h
        cases h
      | ok rest =>
        rw [hr] at h
        cases h
        rcases List.mem_append.mp hx with hxl | hxr
        · exact ⟨p, List.mem_cons_self p ps, l, hf, hxl⟩
        · obtain ⟨q, hq, l2, hfl2, hxl2⟩ := ih rest hr x hxr
          exact ⟨q, List.mem_cons_of_mem p hq, l2, hfl2, hxl2⟩

theorem renderProps_filter_inv (f : Property → Except String (List String))
    (keep : Property → Bool) (hdrop : ∀ p, keep p = false → f p = .ok [])
    (props : List Property) :
    Anon.renderProps f (props.filter keep) = Anon.renderProps f props := by
  induction props with
  | nil => rfl
  | cons p ps ih =>
    cases hk : keep p with
    | false =>
      have hfil : (p :: ps).filter keep = ps.filter keep := by
        simp [List.filter_cons, hk]
      rw [hfil, ih]
      show Anon.renderProps f ps = Anon.renderProps f (p :: ps)
      rw [Anon.renderProps, hdrop p hk]
      cases hr : Anon.renderProps f ps with
      | error e => rfl
      | ok rest => simp
    | true =>
      rw [List.filter_cons_of_pos hk, Anon.renderProps, Anon.renderProps, ih]

theorem renderProps_err_of_unknown (f : Property → Except String (List String))
    (known : Property → Bool) (hbad : ∀ p, known p = false → (f p).isOk = false)
    (props : List Property) (h : ∃ p ∈ props, known p = false) :
    (Anon.renderProps f props).isOk = false := by
  induction props with
  | nil => obtain ⟨p, hp, _⟩ := h; exact absurd hp (List.not_mem_nil p)
  | cons q ps ih =>
    obtain ⟨p, hp, hkp⟩ := h
    rw [Anon.renderProps]
    cases hf : f q with
    | error e => rfl
    | ok l =>
      rcases List.mem_cons.mp hp with rfl | hmem
      · have hq := hbad p hkp
        rw [hf] at hq
        cases hq
      · have hres := ih ⟨p, hmem, hkp⟩
        cases hr : Anon.renderProps f ps with
        | error e => rfl
        | ok rest => rw [hr] at hres; cases hres

end CaldavAnon

namespace CaldavAnon

theorem renderProps_delimFree (f : Property → Except String (List String))
    (hf : ∀ p l, f p = .ok l → ∀ x ∈ l, delimFree x = true)
    (props : List Property) (out : List String)
    (h : Anon.renderProps f props = .ok out) :
    ∀ x ∈ out, delimFree x = true := by
  intro x hx
  obtain ⟨p, _, l, hfl, hxl⟩ := renderProps_mem f props out h x hx
  exact hf p l hfl x hxl

theorem calPropLines_delimFree (cfg : Anon.Cfg) (p : Property) (l : List String)
    (h : Anon.calPropLines cfg p = .ok l) : ∀ x ∈ l, delimFree x = true := by
  unfold Anon.calPropLines at h
  split_ifs at h with h1 h2 h3 h4 h5 h6
  · cases h
    intro x hx
    rw [List.mem_singleton] at hx
    subst hx
    exact anon_build_property_delimFree "CALSCALE" p.params p.value
      (by decide) (by decide) (by decide)
  · cases h; intro x hx; exact absurd hx (List.not_mem_nil x)
  · cases h; intro x hx; exact absurd hx (List.not_mem_nil x)
  · cases h; intro x hx; exact absurd hx (List.not_mem_nil x)
  · cases h; intro x hx; exact absurd hx (List.not_mem_nil x)
  · cases h; intro x hx; exact absurd hx (List.not_mem_nil x)
  · unfold Anon.unknownProperty at h
    split_ifs at h
    all_goals (cases h; intro x hx; exact absurd hx (List.not_mem_nil x))

theorem tzPropLines_delimFree (cfg : Anon.Cfg) (p : Property) (l : List String)
    (h : Anon.tzPropLines cfg p = .ok l) : ∀ x ∈ l, delimFree x = true := by
  unfold Anon.tzPropLines at h
  split_ifs at h with h1
  · cases h
    intro x hx
    rw [List.mem_singleton] at hx
    subst hx
    rw [h1]
    exact anon_build_property_delimFree "TZID" p.params p.value
      (by decide) (by decide) (by decide)
  · unfold Anon.unknownProperty at h
    split_ifs at h
    all_goals (cases h; intro x hx; exact absurd hx (List.not_mem_nil x))

theorem transPropLines_delimFree (cfg : Anon.Cfg) (p : Property) (l : List String)
    (h : Anon.transPropLines cfg p = .ok l) : ∀ x ∈ l, delimFree x = true := by
  unfold Anon.transPropLines at h
  split_ifs at h with h1
  · cases h
    intro x hx
    rw [List.mem_singleton] at hx
    subst hx
    rcases h1 with h1 | h1 | h1 | h1 | h1 <;>
      (rw [h1]; exact anon_build_property_delimFree _ p.params p.value
        (by decide) (by decide) (by decide))
  · unfold Anon.unknownProperty at h
    split_ifs at h
    all_goals (cases h; intro x hx; exact absurd hx (List.not_mem_nil x))

theorem eventPropLines_delimFree (cfg : Anon.Cfg) (p : Property) (l : List String)
    (h : Anon.eventPropLines cfg p = .ok l) : ∀ x ∈ l, delimFree x = true := by
  unfold Anon.eventPropLines at h
  split_ifs at h with h1 h2 h3
  · cases h
    intro x hx
    rw [List.mem_singleton] at hx
    subst hx
    rcases h1 with h1 | h1 | h1 | h1 | h1 | h1 | h1 | h1 <;>
      (rw [h1]; exact anon_build_property_delimFree _ p.params p.value
        (by decide) (by decide) (by decide))
  · cases hv : p.value with
    | some v =>
      rw [hv] at h
      cases h
      intro x hx
      rw [List.mem_singleton] at hx
      subst hx
      exact prefixed_delimFree "UID:" (Sha256.hmacSha256Hex cfg.seed v)
        (by decide) (by decide) (by decide)
    | none =>
      rw [hv] at h
      cases h
      intro x hx
      exact absurd hx (List.not_mem_nil x)
  · cases h; intro x hx; exact absurd hx (List.not_mem_nil x)
  · unfold Anon.unknownProperty at h
    split_ifs at h
    all_goals (cases h; intro x hx; exact absurd hx (List.not_mem_nil x))

theorem scan_begin (l : String) (ls : List String) (st : List BlockKind)
    (k : BlockKind) (hb : beginOf l = some k) (hp : pushAllowed st k = true) :
    scan (l :: ls) st = scan ls (k :: st) := by
  rw [scan, hb]
  simp [hp]

theorem scan_end (l : String) (ls : List String) (st : List BlockKind)
    (k : BlockKind) (hb : beginOf l = none) (he : endOf l = some k) :
    scan (l :: ls) (k :: st) = scan ls st := by
  rw [scan, hb, he]
  simp

theorem scan_begin_vcalendar (ls : List String) :
    scan ("BEGIN:VCALENDAR\n" :: ls) [] = scan ls [.vcalendar] :=
  scan_begin _ _ _ .vcalendar (by decide) rfl

theorem scan_begin_vtimezone (ls : List String) (st : List BlockKind) :
    scan ("BEGIN:VTIMEZONE\n" :: ls) (.vcalendar :: st) =
      scan ls (.vtimezone :: .vcalendar :: st) :=
  scan_begin _ _ _ .vtimezone (by decide) rfl

theorem scan_begin_standard (ls : List String) (st : List BlockKind) :
    scan ("BEGIN:STANDARD\n" :: ls) (.vtimezone :: st) =
      scan ls (.vstandard :: .vtimezone :: st) :=
  scan_begin _ _ _ .vstandard (by decide) rfl

theorem scan_begin_vevent (ls : List String) (st : List BlockKind) :
    scan ("BEGIN:VEVENT\n" :: ls) (.vcalendar :: st) =
      scan ls (.vevent :: .vcalendar :: st) :=
  scan_begin _ _ _ .vevent (by decide) rfl

theorem scan_end_vcalendar (ls : List String) (st : List BlockKind) :
    scan ("END:VCALENDAR\n" :: ls) (.vcalendar :: st) = scan ls st :=
  scan_end _ _ _ .vcalendar (by decide) (by decide)

theorem scan_end_vtimezone (ls : List String) (st : List BlockKind) :
    scan ("END:VTIMEZONE\n" :: ls) (.vtimezone :: st) = scan ls st :=
  scan_end _ _ _ .vtimezone (by decide) (by decide)

theorem scan_end_standard (ls : List String) (st : List BlockKind) :
    scan ("END:STANDARD\n" :: ls) (.vstandard :: st) = scan ls st :=
  scan_end _ _ _ .vstandard (by decide) (by decide)

theorem scan_end_vevent (ls : List String) (st : List BlockKind) :
    scan ("END:VEVENT\n" :: ls) (.vevent :: st) = scan ls st :=
  scan_end _ _ _ .vevent (by decide) (by decide)

end CaldavAnon

namespace CaldavAnon

theorem scan_step_content (l : String) (ls : List String) (st : List BlockKind)
    (hd : delimFree l = true) (hst : st ≠ []) : scan (l :: ls) st = scan ls st := by
  simp only [delimFree, Bool.and_eq_true, Option.isNone_iff_eq_none] at hd
  have hse : st.isEmpty = false := by
    cases st with
    | nil => exact absurd rfl hst
    | cons a s => rfl
  rw [scan, hd.1, hd.2]
  simp [hse]

theorem scan_handle_transitions (cfg : Anon.Cfg) (ts : List IcalTimeZoneTransition)
    (out : List String) (s : List BlockKind)
    (h : Anon.handle_transitions cfg ts = .ok out) :
    scan out (.vtimezone :: s) = some (.vtimezone :: s) := by
  induction ts generalizing out with
  | nil => rw [Anon.handle_transitions] at h; cases h; rfl
  | cons t ts ih =>
    rw [Anon.handle_transitions] at h
    cases hb : Anon.renderProps (Anon.transPropLines cfg) t.properties with
    | error e => rw [hb] at h; cases h
    | ok body =>
      rw [hb] at h
      cases hr : Anon.handle_transitions cfg ts with
      | error e => rw [hr] at h; cases h
      | ok rest =>
        rw [hr] at h
        cases h
        have hbody : ∀ x ∈ body, delimFree x = true :=
          renderProps_delimFree _ (transPropLines_delimFree cfg) _ _ hb
        simp only [List.append_assoc, List.cons_append, List.nil_append]
        rw [scan_begin_standard, scan_append,
          scan_content body _ hbody (by simp)]
        simp only [Option.some_bind]
        rw [scan_end_standard]
        exact ih rest hr

theorem scan_handle_timezones (cfg : Anon.Cfg) (tzs : List IcalTimeZone)
    (out : List String) (s : List BlockKind)
    (h : Anon.handle_timezones cfg tzs = .ok out) :
    scan out (.vcalendar :: s) = some (.vcalendar :: s) := by
  induction tzs generalizing out with
  | nil => rw [Anon.handle_timezones] at h; cases h; rfl
  | cons tz tzs ih =>
    rw [Anon.handle_timezones] at h
    cases hp : Anon.renderProps (Anon.tzPropLines cfg) tz.properties with
    | error e => rw [hp] at h; cases h
    | ok props =>
      rw [hp] at h
      cases ht : Anon.handle_transitions cfg tz.transitions with
      | error e => rw [ht] at h; cases h
      | ok tlines =>
        rw [ht] at h
        cases hr : Anon.handle_timezones cfg tzs with
        | error e => rw [hr] at h; cases h
        | ok rest =>
          rw [hr] at h
          cases h
          have hprops : ∀ x ∈ props, delimFree x = true :=
            renderProps_delimFree _ (tzPropLines_delimFree cfg) _ _ hp
          simp only [List.append_assoc, List.cons_append, List.nil_append]
          rw [scan_begin_vtimezone, scan_append,
            scan_content props _ hprops (by simp)]
          simp only [Option.some_bind]
          rw [scan_append, scan_handle_transitions cfg tz.transitions tlines _ ht]
          simp only [Option.some_bind]
          rw [scan_end_vtimezone]
          exact ih rest hr

theorem scan_handle_events (cfg : Anon.Cfg) (evts : List IcalEvent)
    (out : List String) (s : List BlockKind)
    (h : Anon.handle_events cfg evts = .ok out) :
    scan out (.vcalendar :: s) = some (.vcalendar :: s) := by
  induction evts generalizing out with
  | nil => rw [Anon.handle_events] at h; cases h; rfl
  | cons e es ih =>
    rw [Anon.handle_events] at h
    cases hb : Anon.renderProps (Anon.eventPropLines cfg) e.properties with
    | error err => rw [hb] at h; cases h
    | ok body =>
      rw [hb] at h
      cases hr : Anon.handle_events cfg es with
      | error err => rw [hr] at h; cases h
      | ok rest =>
        rw [hr] at h
        cases h
        have hbody : ∀ x ∈ body, delimFree x = true :=
          renderProps_delimFree _ (eventPropLines_delimFree cfg) _ _ hb
        simp only [Anon.eventHeader, List.append_assoc, List.cons_append,
          List.nil_append]
        rw [scan_begin_vevent,
          scan_step_content _ _ _
            (prefixed_delimFree "SUMMARY:" cfg.message (by decide) (by decide) (by decide))
            (by simp),
          scan_step_content _ _ _ (by decide) (by simp),
          scan_append, scan_content body _ hbody (by simp)]
        simp only [Option.some_bind]
        rw [scan_end_vevent]
        exact ih rest hr

theorem scan_ignore_transitions (ts : List IcalTimeZoneTransition) (s : List BlockKind) :
    scan ((ts.map Ignore.transitionBlock).flatten) (.vtimezone :: s) =
      some (.vtimezone :: s) := by
  induction ts with
  | nil => rfl
  | cons t ts ih =>
    simp only [List.map_cons, List.flatten_cons, Ignore.transitionBlock]
    simp only [List.append_assoc, List.cons_append, List.nil_append]
    rw [scan_begin_standard, scan_append,
      scan_content _ _ (by
        intro x hx
        obtain ⟨p, _, hpx⟩ := List.mem_map.mp hx
        rw [← hpx]
        exact ignore_renderProp_delimFree p) (by simp)]
    simp only [Option.some_bind]
    rw [scan_end_standard]
    exact ih

theorem scan_ignore_timezones (tzs : List IcalTimeZone) (s : List BlockKind) :
    scan ((tzs.map Ignore.timezoneBlock).flatten) (.vcalendar :: s) =
      some (.vcalendar :: s) := by
  induction tzs with
  | nil => rfl
  | cons tz tzs ih =>
    simp only [List.map_cons, List.flatten_cons, Ignore.timezoneBlock]
    simp only [List.append_assoc, List.cons_append, List.nil_append]
    rw [scan_begin_vtimezone, scan_append,
      scan_content _ _ (by
        intro x hx
        obtain ⟨p, _, hpx⟩ := List.mem_map.mp hx
        rw [← hpx]
        exact ignore_renderProp_delimFree p) (by simp)]
    simp only [Option.some_bind]
    rw [scan_append, scan_ignore_transitions tz.transitions]
    simp only [Option.some_bind]
    rw [scan_end_vtimezone]
    exact ih

theorem scan_ignore_events (cfg : Ignore.Cfg) (evts : List IcalEvent) (s : List BlockKind) :
    scan ((evts.map (Ignore.eventBlock cfg)).flatten) (.vcalendar :: s) =
      some (.vcalendar :: s) := by
  induction evts with
  | nil => rfl
  | cons e es ih =>
    simp only [List.map_cons, List.flatten_cons, Ignore.eventBlock]
    by_cases hm : e.properties.any (Ignore.summaryMatches cfg) = true
    · simp only [hm, if_true, List.nil_append]
      exact ih
    · simp only [hm, if_false, Bool.false_eq_true]
      simp only [List.append_assoc, List.cons_append, List.nil_append]
      rw [scan_begin_vevent, scan_append,
        scan_content _ _ (by
          intro x hx
          obtain ⟨p, _, hpx⟩ := List.mem_map.mp hx
          rw [← hpx]
          exact ignore_renderProp_delimFree p) (by simp)]
      simp only [Option.some_bind]
      rw [scan_end_vevent]
      exact ih

end CaldavAnon

namespace CaldavAnon

theorem except_map_isOk {α β : Type} (f : α → β) (e : Except String α) :
    (Except.map f e).isOk = e.isOk := by
  cases e <;> rfl

theorem anon_generate_structure (cal : IcalCalendar) (cfg : Anon.Cfg)
    (out : List String) (h : Anon.generate_ics_lines cal cfg = .ok out) :
    out.head? = some "BEGIN:VCALENDAR\n" ∧
      out.getLast? = some "END:VCALENDAR\n" ∧ scan out [] = some [] := by
  rw [Anon.generate_ics_lines] at h
  cases hcp : Anon.handle_calendar_properties cfg cal.properties with
  | error e => rw [hcp] at h; cases h
  | ok cp =>
    rw [hcp] at h
    cases htz : Anon.handle_timezones cfg cal.timezones with
    | error e => rw [htz] at h; cases h
    | ok tz =>
      rw [htz] at h
      cases hev : Anon.handle_events cfg cal.events with
      | error e => rw [hev] at h; cases h
      | ok ev =>
        rw [hev] at h
        split_ifs at h
        cases h
        refine ⟨rfl, ?_, ?_⟩
        · exact List.getLast?_concat _
        · simp only [Anon.header, List.append_assoc, List.cons_append,
            List.nil_append]
          rw [scan_begin_vcalendar,
            scan_step_content _ _ _ (by decide) (by simp),
            scan_step_content _ _ _ (by decide) (by simp),
            scan_append,
            scan_content cp _
              (renderProps_delimFree _ (calPropLines_delimFree cfg) _ _ hcp)
              (by simp)]
          simp only [Option.some_bind]
          rw [scan_append, scan_handle_timezones cfg cal.timezones tz [] htz]
          simp only [Option.some_bind]
          rw [scan_append, scan_handle_events cfg cal.events ev [] hev]
          simp only [Option.some_bind]
          rw [scan_end_vcalendar]
          rfl

theorem ignore_generate_structure (cal : IcalCalendar) (cfg : Ignore.Cfg)
    (out : List String) (h : Ignore.generate_ics_lines cal cfg = .ok out) :
    out.head? = some "BEGIN:VCALENDAR\n" ∧
      out.getLast? = some "END:VCALENDAR\n" ∧ scan out [] = some [] := by
  rw [Ignore.generate_ics_lines] at h
  rw [Ignore.handle_calendar_properties, Ignore.handle_timezones,
    Ignore.handle_events] at h
  split_ifs at h
  cases h
  refine ⟨rfl, ?_, ?_⟩
  · exact List.getLast?_concat _
  · simp only [List.append_assoc, List.cons_append, List.nil_append]
    rw [scan_begin_vcalendar, scan_append,
      scan_content _ _ (by
        intro x hx
        obtain ⟨p, _, hpx⟩ := List.mem_map.mp hx
        rw [← hpx]
        exact ignore_renderProp_delimFree p) (by simp)]
    simp only [Option.some_bind]
    rw [scan_append, scan_ignore_timezones cal.timezones]
    simp only [Option.some_bind]
    rw [scan_append, scan_ignore_events cfg cal.events]
    simp only [Option.some_bind]
    rw [scan_end_vcalendar]
    rfl

end CaldavAnon

namespace CaldavAnon

theorem unknownProperty_strict (ty : String) (cfg : Anon.Cfg) (name : String)
    (h : cfg.ignore_unknown_properties = false) :
    (Anon.unknownProperty ty cfg name).isOk = false := by
  unfold Anon.unknownProperty
  simp only [h, Bool.false_eq_true, if_false]
  rfl

theorem unknownProperty_lenient (ty : String) (cfg : Anon.Cfg) (name : String)
    (h : cfg.ignore_unknown_properties = true) :
    Anon.unknownProperty ty cfg name = .ok [] := by
  unfold Anon.unknownProperty
  simp [h]

theorem calPropLines_of_unknown (cfg : Anon.Cfg) (p : Property)
    (h : calKnown p = false) :
    Anon.calPropLines cfg p = Anon.unknownProperty "calendar" cfg p.name := by
  unfold calKnown at h
  simp only [Bool.or_eq_false_iff, decide_eq_false_iff_not] at h
  obtain ⟨⟨⟨⟨⟨h1, h2⟩, h3⟩, h4⟩, h5⟩, h6⟩ := h
  unfold Anon.calPropLines
  rw [if_neg h1, if_neg h2, if_neg h3, if_neg h4, if_neg h5,
    if_neg (by simp [h6])]

theorem calPropLines_known_isOk (cfg : Anon.Cfg) (p : Property)
    (h : calKnown p = true) : (Anon.calPropLines cfg p).isOk = true := by
  unfold calKnown at h
  simp only [Bool.or_eq_true, decide_eq_true_eq] at h
  unfold Anon.calPropLines
  split_ifs with h1 h2 h3 h4 h5 h6
  · rfl
  · rfl
  · rfl
  · rfl
  · rfl
  · rfl
  · rcases h with ((((h | h) | h) | h) | h) | h
    · exact absurd h h1
    · exact absurd h h2
    · exact absurd h h3
    · exact absurd h h4
    · exact absurd h h5
    · exact absurd h h6

theorem tzPropLines_of_unknown (cfg : Anon.Cfg) (p : Property)
    (h : tzKnown p = false) :
    Anon.tzPropLines cfg p = Anon.unknownProperty "timezone" cfg p.name := by
  unfold tzKnown at h
  simp only [decide_eq_false_iff_not] at h
  unfold Anon.tzPropLines
  rw [if_neg h]

theorem tzPropLines_known_isOk (cfg : Anon.Cfg) (p : Property)
    (h : tzKnown p = true) : (Anon.tzPropLines cfg p).isOk = true := by
  unfold tzKnown at h
  simp only [decide_eq_true_eq] at h
  unfold Anon.tzPropLines
  rw [if_pos h]
  rfl

theorem transPropLines_of_unknown (cfg : Anon.Cfg) (p : Property)
    (h : transKnown p = false) :
    Anon.transPropLines cfg p =
      Anon.unknownProperty "timezone transition" cfg p.name := by
  unfold transKnown at h
  simp only [decide_eq_false_iff_not] at h
  unfold Anon.transPropLines
  rw [if_neg h]

theorem transPropLines_known_isOk (cfg : Anon.Cfg) (p : Property)
    (h : transKnown p = true) : (Anon.transPropLines cfg p).isOk = true := by
  unfold transKnown at h
  simp only [decide_eq_true_eq] at h
  unfold Anon.transPropLines
  rw [if_pos h]
  rfl

theorem eventPropLines_of_unknown (cfg : Anon.Cfg) (p : Property)
    (h : eventKnown p = false) :
    Anon.eventPropLines cfg p = Anon.unknownProperty "event" cfg p.name := by
  unfold eventKnown at h
  simp only [Bool.or_eq_false_iff, decide_eq_false_iff_not] at h
  obtain ⟨⟨h1, h2⟩, h3⟩ := h
  unfold Anon.eventPropLines
  rw [if_neg h1, if_neg h2, if_neg h3]

theorem eventPropLines_known_isOk (cfg : Anon.Cfg) (p : Property)
    (h : eventKnown p = true) : (Anon.eventPropLines cfg p).isOk = true := by
  unfold eventKnown at h
  simp only [Bool.or_eq_true, decide_eq_true_eq] at h
  unfold Anon.eventPropLines
  split_ifs with h1 h2 h3
  · rfl
  · cases p.value <;> rfl
  · rfl
  · rcases h with (h | h) | h
    · exact absurd h h1
    · exact absurd h h2
    · exact absurd h h3

end CaldavAnon

namespace CaldavAnon

/-- Claim C5 counterexample: the claim asserts that rendering a property
with parameters `[("TZID", ["x","y"])]` and value `"v"` yields exactly
`NAME;TZID=x,y:v\n` for the single rendering routine of *each* deployment.
The routine of `src/lib.rs`, used for every component kind of the
`ics-ignore` deployment, instead wraps parameter values and the scalar
value in double quotes, yielding `NAME;TZID="x","y":"v"\n`. -/
theorem c5_counterexample :
    IcsTools.build_property "NAME" (some [("TZID", ["x", "y"])]) (some "v") =
      "NAME;TZID=\"x\",\"y\":\"v\"\n" ∧
    IcsTools.build_property "NAME" (some [("TZID", ["x", "y"])]) (some "v") ≠
      "NAME;TZID=x,y:v\n" := by
  constructor
  · rfl
  · decide

/-- Claim C5 (amended): for every property name, the `src/main.rs`
renderer yields exactly `NAME;TZID=x,y:v\n` on parameters
`[("TZID", ["x","y"])]` and value `"v"` (so re-rendering the same parsed
triple reproduces the line), while the `src/lib.rs` renderer used by the
`ics-ignore` deployment yields the quoted variant
`NAME;TZID="x","y":"v"\n`. -/
theorem c5_render_amended (name : String) :
    Anon.build_property name (some [("TZID", ["x", "y"])]) (some "v") =
      name ++ ";TZID=x,y:v\n" ∧
    IcsTools.build_property name (some [("TZID", ["x", "y"])]) (some "v") =
      name ++ ";TZID=\"x\",\"y\":\"v\"\n" := by
  constructor
  · show ((List.foldl Anon.renderParam name [("TZID", ["x", "y"])]) ++ ":" ++ "v" ++ "\n") = _
    show (name ++ ";" ++ "TZID" ++ "=" ++ "x" ++ "," ++ "y") ++ ":" ++ "v" ++ "\n" = _
    apply String.ext
    simp [String.data_append]
  · show ((List.foldl IcsTools.renderParam name [("TZID", ["x", "y"])]) ++ ":\"" ++ "v" ++ "\"\n") = _
    show ((name ++ ";" ++ "TZID" ++ "=\"" ++ "x" ++ "\",\"" ++ "y") ++ "\"") ++ ":\"" ++ "v" ++ "\"\n" = _
    apply String.ext
    simp [String.data_append]

/-- Claim C6 counterexample: the claim asserts that a `UID` property with
no value makes the event filter fail with a `MissingValue` error.  In
`handle_events` of `src/main.rs` the `UID` arm is
`if let Some(value) = &p.value { ... }` with no else branch, so a valueless
`UID` is silently dropped and the transcode succeeds. -/
theorem c6_counterexample :
    Anon.handle_events ⟨"Busy", "s3cr3t", false⟩ [⟨[⟨"UID", none, none⟩], []⟩] =
      .ok ["BEGIN:VEVENT\n", "SUMMARY:Busy\n", "DTSTAMP:20200101T000001Z\n",
        "END:VEVENT\n"] := by
  rfl

/-- Claim C6 (amended): an event `UID` property carrying no scalar value
is silently dropped by the property filter — it contributes no output
line and causes no error; the transcode continues. -/
theorem c6_uid_missing_value (cfg : Anon.Cfg) (p : Property)
    (hname : p.name = "UID") (hval : p.value = none) :
    Anon.eventPropLines cfg p = .ok [] := by
  simp [Anon.eventPropLines, hname, hval]

/-- Claim C6 witness. -/
theorem c6_witness :
    Anon.eventPropLines ⟨"Busy", "s3cr3t", false⟩ ⟨"UID", none, none⟩ = .ok [] :=
  c6_uid_missing_value ⟨"Busy", "s3cr3t", false⟩ ⟨"UID", none, none⟩ rfl rfl

/-- Claim C4 counterexample: the claim asserts that a non-matching event
is rendered with no `SUMMARY` line in its output.  The `ics-ignore`
deployment renders *all* properties of a non-matching event, including
its `SUMMARY`. -/
theorem c4_counterexample :
    Ignore.handle_events ⟨"Busy"⟩ [⟨[⟨"SUMMARY", none, some "Dentist"⟩], []⟩] =
      .ok ["BEGIN:VEVENT\n", "SUMMARY:\"Dentist\"\n", "END:VEVENT\n"] := by
  rfl

/-- Claim C4 (amended): in IgnoreMatching mode an event with a `SUMMARY`
equal to the configured sentinel produces zero output lines and
processing continues with the next event; an event with any other
`SUMMARY` (or none) is rendered with *all* its properties — including its
`SUMMARY` — inside a `BEGIN:VEVENT`/`END:VEVENT` block. -/
theorem c4_ignorematching_events (cfg : Ignore.Cfg) (e : IcalEvent)
    (es : List IcalEvent) :
    (e.properties.any (Ignore.summaryMatches cfg) = true →
      Ignore.eventBlock cfg e = [] ∧
      Ignore.handle_events cfg (e :: es) = Ignore.handle_events cfg es) ∧
    (e.properties.any (Ignore.summaryMatches cfg) = false →
      Ignore.eventBlock cfg e =
        ["BEGIN:VEVENT\n"] ++ e.properties.map Ignore.renderProp ++
          ["END:VEVENT\n"]) ∧
    Ignore.handle_events cfg (e :: es) =
      .ok (Ignore.eventBlock cfg e ++ (es.map (Ignore.eventBlock cfg)).flatten) := by
  refine ⟨?_, ?_, ?_⟩
  · intro hm
    constructor
    · simp [Ignore.eventBlock, hm]
    · simp [Ignore.handle_events, Ignore.eventBlock, hm]
  · intro hm
    simp [Ignore.eventBlock, hm]
  · simp [Ignore.handle_events]

/-- Claim C4 witness. -/
theorem c4_witness :
    Ignore.eventBlock ⟨"Busy"⟩ ⟨[⟨"SUMMARY", none, some "Busy"⟩], []⟩ = [] ∧
    Ignore.handle_events ⟨"Busy"⟩ [⟨[⟨"SUMMARY", none, some "Busy"⟩], []⟩] =
      Ignore.handle_events ⟨"Busy"⟩ [] :=
  (c4_ignorematching_events ⟨"Busy"⟩ ⟨[⟨"SUMMARY", none, some "Busy"⟩], []⟩ []).1
    (by decide)

/-- Claim C2: a calendar whose alarms, to-dos, journals or free-busy list
is non-empty is rejected by `generate_ics` in both deployments, with any
configuration: the four `ensure!` checks make the transcode fail before
any output is returned. -/
theorem c2_nonempty_components_rejected (cal : IcalCalendar) (acfg : Anon.Cfg)
    (icfg : Ignore.Cfg)
    (h : cal.alarms ≠ [] ∨ cal.todos ≠ [] ∨ cal.journals ≠ [] ∨
      cal.free_busys ≠ []) :
    (Anon.generate_ics cal acfg).isOk = false ∧
    (Ignore.generate_ics cal icfg).isOk = false := by
  constructor
  · rw [Anon.generate_ics, except_map_isOk, Anon.generate_ics_lines]
    cases hcp : Anon.handle_calendar_properties acfg cal.properties with
    | error e => rfl
    | ok cp =>
      cases htz : Anon.handle_timezones acfg cal.timezones with
      | error e => rfl
      | ok tz =>
        cases hev : Anon.handle_events acfg cal.events with
        | error e => rfl
        | ok ev =>
          split_ifs with h1 h2 h3 h4
          · rfl
          · rfl
          · rfl
          · rfl
          · exfalso
            simp only [Bool.not_eq_false, List.isEmpty_iff] at h1 h2 h3 h4
            rcases h with h | h | h | h
            exacts [h h1, h h2, h h3, h h4]
  · rw [Ignore.generate_ics, except_map_isOk, Ignore.generate_ics_lines,
      Ignore.handle_calendar_properties, Ignore.handle_timezones,
      Ignore.handle_events]
    split_ifs with h1 h2 h3 h4
    · rfl
    · rfl
    · rfl
    · rfl
    · exfalso
      simp only [Bool.not_eq_false, List.isEmpty_iff] at h1 h2 h3 h4
      rcases h with h | h | h | h
      exacts [h h1, h h2, h h3, h h4]

/-- Claim C2 witness. -/
theorem c2_witness :
    (Anon.generate_ics ⟨[], [], [], [⟨[]⟩], [], [], []⟩
      ⟨"Busy", "s", false⟩).isOk = false ∧
    (Ignore.generate_ics ⟨[], [], [], [⟨[]⟩], [], [], []⟩ ⟨"Busy"⟩).isOk = false :=
  c2_nonempty_components_rejected ⟨[], [], [], [⟨[]⟩], [], [], []⟩
    ⟨"Busy", "s", false⟩ ⟨"Busy"⟩ (Or.inl (by decide))

/-- Claim C3 counterexample: the claim asserts that a calendar `VERSION`
property with value exactly `"2.0"` is passed through by the property
filter, and that any other value is dropped without failing in Strict
mode.  In `src/main.rs`, `VERSION` with value `"2.0"` is *censored* (the
filter emits nothing; the `VERSION:2.0` in the output comes from the fixed
header), and `VERSION` with any other value falls into the
`unknown_property!` arm, which fails the whole transcode in Strict mode. -/
theorem c3_counterexample :
    Anon.handle_calendar_properties ⟨"Busy", "s", false⟩
        [⟨"VERSION", none, some "2.0"⟩] = .ok [] ∧
    (Anon.generate_ics ⟨[⟨"VERSION", none, some "1.0"⟩], [], [], [], [], [], []⟩
        ⟨"Busy", "s", false⟩).isOk = false := by
  constructor
  · rfl
  · rfl

/-- Claim C3 (amended): a calendar `VERSION` property with value exactly
`"2.0"` is silently dropped by the property filter (no line emitted, no
failure); a `VERSION` with any other (or no) value is treated as an
unknown calendar property: the transcode fails in Strict mode and drops
the property with a warning in Lenient mode. -/
theorem c3_version_policy (cfg : Anon.Cfg)
    (params : Option (List (String × List String))) (v : Option String) :
    Anon.calPropLines cfg ⟨"VERSION", params, some "2.0"⟩ = .ok [] ∧
    (v ≠ some "2.0" →
      Anon.calPropLines cfg ⟨"VERSION", params, v⟩ =
        Anon.unknownProperty "calendar" cfg "VERSION") ∧
    (v ≠ some "2.0" → cfg.ignore_unknown_properties = false →
      (Anon.calPropLines cfg ⟨"VERSION", params, v⟩).isOk = false) ∧
    (v ≠ some "2.0" → cfg.ignore_unknown_properties = true →
      Anon.calPropLines cfg ⟨"VERSION", params, v⟩ = .ok []) := by
  have hk : ∀ w : Option String, w ≠ some "2.0" →
      calKnown ⟨"VERSION", params, w⟩ = false := by
    intro w hw
    unfold calKnown
    simp only [Bool.or_eq_false_iff, decide_eq_false_iff_not]
    refine ⟨⟨⟨⟨⟨?_, ?_⟩, ?_⟩, ?_⟩, ?_⟩, ?_⟩
    · decide
    · decide
    · decide
    · decide
    · intro hc
      exact hw hc.2
    · decide
  refine ⟨?_, ?_, ?_, ?_⟩
  · simp [Anon.calPropLines]
  · intro hv
    exact calPropLines_of_unknown cfg _ (hk v hv)
  · intro hv hcfg
    rw [calPropLines_of_unknown cfg _ (hk v hv)]
    exact unknownProperty_strict _ cfg _ hcfg
  · intro hv hcfg
    rw [calPropLines_of_unknown cfg _ (hk v hv)]
    exact unknownProperty_lenient _ cfg _ hcfg

/-- Claim C3 witness. -/
theorem c3_witness :
    Anon.calPropLines ⟨"Busy", "s", false⟩ ⟨"VERSION", none, some "2.0"⟩ = .ok [] ∧
    (Anon.calPropLines ⟨"Busy", "s", false⟩ ⟨"VERSION", none, some "1.0"⟩).isOk =
      false :=
  ⟨(c3_version_policy ⟨"Busy", "s", false⟩ none (some "1.0")).1,
   (c3_version_policy ⟨"Busy", "s", false⟩ none (some "1.0")).2.2.1
     (by decide) rfl⟩

end CaldavAnon

namespace CaldavAnon

/-- Claim C1: in Anonymize mode, every rendered event block's SUMMARY line
is the synthetic `SUMMARY:<configured message>` line of the block header;
the input's own SUMMARY properties contribute no output (filtering is
invariant under deleting them, so the original SUMMARY value never reaches
the output); and a UID property carrying a value renders as exactly
`UID:<lower-case hex HMAC-SHA256(seed, uid)>`, never the original value. -/
theorem c1_anonymize_summary_and_uid (cfg : Anon.Cfg) (e : IcalEvent)
    (es : List IcalEvent) (p : Property) (props : List Property) (v : String) :
    Anon.handle_events cfg (e :: es) =
      (match Anon.renderProps (Anon.eventPropLines cfg) e.properties with
       | .error err => .error err
       | .ok body =>
         match Anon.handle_events cfg es with
         | .error err => .error err
         | .ok rest =>
           .ok (["BEGIN:VEVENT\n", "SUMMARY:" ++ cfg.message ++ "\n",
             "DTSTAMP:20200101T000001Z\n"] ++ body ++ ["END:VEVENT\n"] ++ rest)) ∧
    (p.name = "SUMMARY" → Anon.eventPropLines cfg p = .ok []) ∧
    Anon.renderProps (Anon.eventPropLines cfg)
        (props.filter (fun q => !(q.name == "SUMMARY"))) =
      Anon.renderProps (Anon.eventPropLines cfg) props ∧
    (p.name = "UID" → p.value = some v →
      Anon.eventPropLines cfg p =
        .ok ["UID:" ++ Sha256.hmacSha256Hex cfg.seed v ++ "\n"]) := by
  refine ⟨rfl, ?_, ?_, ?_⟩
  · intro h
    simp [Anon.eventPropLines, h]
  · apply renderProps_filter_inv
    intro q hq
    simp only [Bool.not_eq_false', beq_iff_eq] at hq
    simp [Anon.eventPropLines, hq]
  · intro hname hv
    simp [Anon.eventPropLines, hname, hv]

/-- Claim C1 witness. -/
theorem c1_witness :
    Anon.eventPropLines ⟨"Busy", "s3cr3t", false⟩ ⟨"UID", none, some "abc123"⟩ =
      .ok ["UID:" ++ Sha256.hmacSha256Hex "s3cr3t" "abc123" ++ "\n"] :=
  (c1_anonymize_summary_and_uid ⟨"Busy", "s3cr3t", false⟩ ⟨[], []⟩ []
    ⟨"UID", none, some "abc123"⟩ [] "abc123").2.2.2 rfl rfl

/-- Claim C10: in Anonymize mode every event block opens with the three
fixed lines `BEGIN:VEVENT`, `SUMMARY:<configured message>`,
`DTSTAMP:20200101T000001Z` — emitted before any per-property filtering,
also for an event with no properties at all — and every input `DTSTAMP`
is dropped by the filter (filtering is invariant under deleting them), so
the output `DTSTAMP` value is the same fixed constant for every event. -/
theorem c10_fixed_summary_dtstamp (cfg : Anon.Cfg) (p : Property)
    (props : List Property) :
    Anon.eventHeader cfg =
      ["BEGIN:VEVENT\n", "SUMMARY:" ++ cfg.message ++ "\n",
        "DTSTAMP:20200101T000001Z\n"] ∧
    Anon.handle_events cfg [⟨[], []⟩] =
      .ok ["BEGIN:VEVENT\n", "SUMMARY:" ++ cfg.message ++ "\n",
        "DTSTAMP:20200101T000001Z\n", "END:VEVENT\n"] ∧
    (p.name = "DTSTAMP" → Anon.eventPropLines cfg p = .ok []) ∧
    Anon.renderProps (Anon.eventPropLines cfg)
        (props.filter (fun q => !(q.name == "DTSTAMP"))) =
      Anon.renderProps (Anon.eventPropLines cfg) props := by
  refine ⟨rfl, rfl, ?_, ?_⟩
  · intro h
    simp [Anon.eventPropLines, h]
  · apply renderProps_filter_inv
    intro q hq
    simp only [Bool.not_eq_false', beq_iff_eq] at hq
    simp [Anon.eventPropLines, hq]

/-- Claim C10 witness. -/
theorem c10_witness :
    Anon.eventPropLines ⟨"Busy", "s", false⟩ ⟨"DTSTAMP", none, some "19990909T090909Z"⟩ =
      .ok [] :=
  (c10_fixed_summary_dtstamp ⟨"Busy", "s", false⟩
    ⟨"DTSTAMP", none, some "19990909T090909Z"⟩ []).2.2.1 rfl

/-- Claim C7 counterexample: the claim asserts that the Strict/Lenient
unknown-property behavior holds in both operating modes.  The
IgnoreMatching deployment has no unknown-property policy at all: every
calendar property — here the unknown `FOOBAR` — is passed through to the
output, and no configuration makes it fail. -/
theorem c7_counterexample :
    Ignore.generate_ics ⟨[⟨"FOOBAR", none, some "v"⟩], [], [], [], [], [], []⟩
        ⟨"Busy"⟩ =
      .ok "BEGIN:VCALENDAR\nFOOBAR:\"v\"\nEND:VCALENDAR\n" := by
  rfl

/-- Claim C7 (amended): in the Anonymize deployment, a property whose name
is outside the policy table for its component kind (calendar, timezone,
transition, event) makes the whole filter fail in Strict mode
(`ignore_unknown_properties = false`) — for calendar properties this
aborts `generate_ics` itself — while in Lenient mode filtering is
invariant under deleting the unknown properties, so they are simply absent
from the output.  In the IgnoreMatching deployment there is no
unknown-property policy: every calendar property is rendered. -/
theorem c7_unknown_property (acfg : Anon.Cfg) (props : List Property)
    (cal : IcalCalendar) (icfg : Ignore.Cfg) :
    (acfg.ignore_unknown_properties = false →
      (∃ p ∈ props, calKnown p = false) →
      (Anon.handle_calendar_properties acfg props).isOk = false) ∧
    (acfg.ignore_unknown_properties = false →
      (∃ p ∈ cal.properties, calKnown p = false) →
      (Anon.generate_ics cal acfg).isOk = false) ∧
    (acfg.ignore_unknown_properties = true →
      Anon.handle_calendar_properties acfg (props.filter calKnown) =
        Anon.handle_calendar_properties acfg props) ∧
    (acfg.ignore_unknown_properties = false →
      (∃ p ∈ props, tzKnown p = false) →
      (Anon.renderProps (Anon.tzPropLines acfg) props).isOk = false) ∧
    (acfg.ignore_unknown_properties = true →
      Anon.renderProps (Anon.tzPropLines acfg) (props.filter tzKnown) =
        Anon.renderProps (Anon.tzPropLines acfg) props) ∧
    (acfg.ignore_unknown_properties = false →
      (∃ p ∈ props, transKnown p = false) →
      (Anon.renderProps (Anon.transPropLines acfg) props).isOk = false) ∧
    (acfg.ignore_unknown_properties = true →
      Anon.renderProps (Anon.transPropLines acfg) (props.filter transKnown) =
        Anon.renderProps (Anon.transPropLines acfg) props) ∧
    (acfg.ignore_unknown_properties = false →
      (∃ p ∈ props, eventKnown p = false) →
      (Anon.renderProps (Anon.eventPropLines acfg) props).isOk = false) ∧
    (acfg.ignore_unknown_properties = true →
      Anon.renderProps (Anon.eventPropLines acfg) (props.filter eventKnown) =
        Anon.renderProps (Anon.eventPropLines acfg) props) ∧
    Ignore.handle_calendar_properties icfg props =
      .ok (props.map Ignore.renderProp) := by
  refine ⟨?_, ?_, ?_, ?_, ?_, ?_, ?_, ?_, ?_, rfl⟩
  · intro hcfg hex
    exact renderProps_err_of_unknown _ calKnown
      (fun p hp => by
        rw [calPropLines_of_unknown acfg p hp]
        exact unknownProperty_strict _ acfg _ hcfg) props hex
  · intro hcfg hex
    have hfail : (Anon.handle_calendar_properties acfg cal.properties).isOk = false :=
      renderProps_err_of_unknown _ calKnown
        (fun p hp => by
          rw [calPropLines_of_unknown acfg p hp]
          exact unknownProperty_strict _ acfg _ hcfg) cal.properties hex
    rw [Anon.generate_ics, except_map_isOk, Anon.generate_ics_lines]
    cases hcp : Anon.handle_calendar_properties acfg cal.properties with
    | error e => rfl
    | ok cp => rw [hcp] at hfail; cases hfail
  · intro hcfg
    exact renderProps_filter_inv _ calKnown
      (fun p hp => by
        rw [calPropLines_of_unknown acfg p hp]
        exact unknownProperty_lenient _ acfg _ hcfg) props
  · intro hcfg hex
    exact renderProps_err_of_unknown _ tzKnown
      (fun p hp => by
        rw [tzPropLines_of_unknown acfg p hp]
        exact unknownProperty_strict _ acfg _ hcfg) props hex
  · intro hcfg
    exact renderProps_filter_inv _ tzKnown
      (fun p hp => by
        rw [tzPropLines_of_unknown acfg p hp]
        exact unknownProperty_lenient _ acfg _ hcfg) props
  · intro hcfg hex
    exact renderProps_err_of_unknown _ transKnown
      (fun p hp => by
        rw [transPropLines_of_unknown acfg p hp]
        exact unknownProperty_strict _ acfg _ hcfg) props hex
  · intro hcfg
    exact renderProps_filter_inv _ transKnown
      (fun p hp => by
        rw [transPropLines_of_unknown acfg p hp]
        exact unknownProperty_lenient _ acfg _ hcfg) props
  · intro hcfg hex
    exact renderProps_err_of_unknown _ eventKnown
      (fun p hp => by
        rw [eventPropLines_of_unknown acfg p hp]
        exact unknownProperty_strict _ acfg _ hcfg) props hex
  · intro hcfg
    exact renderProps_filter_inv _ eventKnown
      (fun p hp => by
        rw [eventPropLines_of_unknown acfg p hp]
        exact unknownProperty_lenient _ acfg _ hcfg) props

/-- Claim C7 witness. -/
theorem c7_witness :
    (Anon.handle_calendar_properties ⟨"Busy", "s", false⟩
      [⟨"FOOBAR", none, some "v"⟩]).isOk = false ∧
    (Anon.generate_ics ⟨[⟨"FOOBAR", none, some "v"⟩], [], [], [], [], [], []⟩
      ⟨"Busy", "s", false⟩).isOk = false :=
  ⟨(c7_unknown_property ⟨"Busy", "s", false⟩ [⟨"FOOBAR", none, some "v"⟩]
      ⟨[⟨"FOOBAR", none, some "v"⟩], [], [], [], [], [], []⟩ ⟨"Busy"⟩).1 rfl
      ⟨⟨"FOOBAR", none, some "v"⟩, by decide, by decide⟩,
   (c7_unknown_property ⟨"Busy", "s", false⟩ [⟨"FOOBAR", none, some "v"⟩]
      ⟨[⟨"FOOBAR", none, some "v"⟩], [], [], [], [], [], []⟩ ⟨"Busy"⟩).2.1 rfl
      ⟨⟨"FOOBAR", none, some "v"⟩, by decide, by decide⟩⟩

/-- Claim C8 counterexample: the claim asserts that under an empty HMAC
seed no transcode can succeed at pseudonymizing a UID.  The code never
validates the seed: `Hmac::<Sha256>::new_from_slice` accepts keys of any
length, so with `seed = ""` the transcode succeeds and the UID is
pseudonymized under the empty key. -/
theorem c8_counterexample :
    Anon.generate_ics_lines
        ⟨[], [], [⟨[⟨"UID", none, some "abc123"⟩], []⟩], [], [], [], []⟩
        ⟨"Busy", "", false⟩ =
      .ok ["BEGIN:VCALENDAR\n", "VERSION:2.0\n", "PRODID:CALDAV-ANON\n",
        "BEGIN:VEVENT\n", "SUMMARY:Busy\n", "DTSTAMP:20200101T000001Z\n",
        "UID:" ++ Sha256.hmacSha256Hex "" "abc123" ++ "\n",
        "END:VEVENT\n", "END:VCALENDAR\n"] := by
  rfl

/-- Claim C8 (amended): a missing `seed` key makes the TOML configuration
fail to deserialize at startup (before any request), but an *empty* seed
is accepted: hasher initialization never fails and a UID is pseudonymized
under the empty key, so the transcode succeeds. -/
theorem c8_empty_seed_pseudonymizes (cfg : Anon.Cfg) (p : Property) (v : String)
    (hname : p.name = "UID") (hv : p.value = some v) (hs : cfg.seed = "") :
    Anon.eventPropLines cfg p =
      .ok ["UID:" ++ Sha256.hmacSha256Hex "" v ++ "\n"] := by
  simp [Anon.eventPropLines, hname, hv, hs]

/-- Claim C8 witness. -/
theorem c8_witness :
    Anon.eventPropLines ⟨"Busy", "", false⟩ ⟨"UID", none, some "abc123"⟩ =
      .ok ["UID:" ++ Sha256.hmacSha256Hex "" "abc123" ++ "\n"] :=
  c8_empty_seed_pseudonymizes ⟨"Busy", "", false⟩ ⟨"UID", none, some "abc123"⟩
    "abc123" rfl rfl rfl

/-- Claim C9: whenever transcoding succeeds (in either deployment), the
emitted line list opens with `BEGIN:VCALENDAR`, closes with
`END:VCALENDAR`, and the structural scan accepts it: every `BEGIN:<kind>`
line is matched by a later `END:<kind>` line with proper nesting —
timezones and events directly under the calendar, each `STANDARD`
transition block complete inside its timezone, every `VEVENT` block
complete and un-nested. -/
theorem c9_wellnested (cal : IcalCalendar) (acfg : Anon.Cfg) (icfg : Ignore.Cfg)
    (la lb : List String)
    (ha : Anon.generate_ics_lines cal acfg = .ok la)
    (hb : Ignore.generate_ics_lines cal icfg = .ok lb) :
    (la.head? = some "BEGIN:VCALENDAR\n" ∧ la.getLast? = some "END:VCALENDAR\n" ∧
      scan la [] = some []) ∧
    (lb.head? = some "BEGIN:VCALENDAR\n" ∧ lb.getLast? = some "END:VCALENDAR\n" ∧
      scan lb [] = some []) :=
  ⟨anon_generate_structure cal acfg la ha, ignore_generate_structure cal icfg lb hb⟩

/-- Claim C9 witness. -/
theorem c9_witness :
    (["BEGIN:VCALENDAR\n", "VERSION:2.0\n", "PRODID:CALDAV-ANON\n",
      "CALSCALE:GREGORIAN\n", "BEGIN:VTIMEZONE\n", "TZID:UTC\n",
      "BEGIN:STANDARD\n", "DTSTART:19700101\n", "END:STANDARD\n",
      "END:VTIMEZONE\n", "BEGIN:VEVENT\n", "SUMMARY:Busy\n",
      "DTSTAMP:20200101T000001Z\n", "DTSTART:20240101\n", "END:VEVENT\n",
      "END:VCALENDAR\n"].head? = some "BEGIN:VCALENDAR\n" ∧
     ["BEGIN:VCALENDAR\n", "VERSION:2.0\n", "PRODID:CALDAV-ANON\n",
      "CALSCALE:GREGORIAN\n", "BEGIN:VTIMEZONE\n", "TZID:UTC\n",
      "BEGIN:STANDARD\n", "DTSTART:19700101\n", "END:STANDARD\n",
      "END:VTIMEZONE\n", "BEGIN:VEVENT\n", "SUMMARY:Busy\n",
      "DTSTAMP:20200101T000001Z\n", "DTSTART:20240101\n", "END:VEVENT\n",
      "END:VCALENDAR\n"].getLast? = some "END:VCALENDAR\n" ∧
     scan ["BEGIN:VCALENDAR\n", "VERSION:2.0\n", "PRODID:CALDAV-ANON\n",
      "CALSCALE:GREGORIAN\n", "BEGIN:VTIMEZONE\n", "TZID:UTC\n",
      "BEGIN:STANDARD\n", "DTSTART:19700101\n", "END:STANDARD\n",
      "END:VTIMEZONE\n", "BEGIN:VEVENT\n", "SUMMARY:Busy\n",
      "DTSTAMP:20200101T000001Z\n", "DTSTART:20240101\n", "END:VEVENT\n",
      "END:VCALENDAR\n"] [] = some []) ∧
    (["BEGIN:VCALENDAR\n", "CALSCALE:\"GREGORIAN\"\n", "BEGIN:VTIMEZONE\n",
      "TZID:\"UTC\"\n", "BEGIN:STANDARD\n", "DTSTART:\"19700101\"\n",
      "END:STANDARD\n", "END:VTIMEZONE\n", "BEGIN:VEVENT\n",
      "DTSTART:\"20240101\"\n", "END:VEVENT\n",
      "END:VCALENDAR\n"].head? = some "BEGIN:VCALENDAR\n" ∧
     ["BEGIN:VCALENDAR\n", "CALSCALE:\"GREGORIAN\"\n", "BEGIN:VTIMEZONE\n",
      "TZID:\"UTC\"\n", "BEGIN:STANDARD\n", "DTSTART:\"19700101\"\n",
      "END:STANDARD\n", "END:VTIMEZONE\n", "BEGIN:VEVENT\n",
      "DTSTART:\"20240101\"\n", "END:VEVENT\n",
      "END:VCALENDAR\n"].getLast? = some "END:VCALENDAR\n" ∧
     scan ["BEGIN:VCALENDAR\n", "CALSCALE:\"GREGORIAN\"\n", "BEGIN:VTIMEZONE\n",
      "TZID:\"UTC\"\n", "BEGIN:STANDARD\n", "DTSTART:\"19700101\"\n",
      "END:STANDARD\n", "END:VTIMEZONE\n", "BEGIN:VEVENT\n",
      "DTSTART:\"20240101\"\n", "END:VEVENT\n",
      "END:VCALENDAR\n"] [] = some []) :=
  c9_wellnested
    ⟨[⟨"CALSCALE", none, some "GREGORIAN"⟩],
     [⟨[⟨"TZID", none, some "UTC"⟩], [⟨[⟨"DTSTART", none, some "19700101"⟩]⟩]⟩],
     [⟨[⟨"DTSTART", none, some "20240101"⟩], []⟩], [], [], [], []⟩
    ⟨"Busy", "s", false⟩ ⟨"Busy"⟩ _ _ rfl rfl

end CaldavAnon
